import Mathlib

/-!
Verification of the music-display synchronization core against its
natural-language specification.  The frontend client (TypeScript, under
`src/frontend/src/`) is embedded shallowly below; backend components that
exist only in the specification (Change Detector, Arbiter ingestion) are
modelled from the spec text and marked as such in their doc comments.
-/

namespace MusicDisplay

/-- Source tag of a track, from `src/frontend/src/types.ts` line 1:
`export type SourceType = 'spotify' | 'analog' | 'unknown'`. -/
inductive SourceType where
  | spotify
  | analog
  | unknown
deriving DecidableEq, Repr

/-- Serialization of a `SourceType` value to its wire string, as written in
the TypeScript union type. -/
def sourceTypeStr : SourceType → String
  | .spotify => "spotify"
  | .analog => "analog"
  | .unknown => "unknown"

/-- Display mode, from `types.ts` line 21:
`'album_art' | 'lyrics' | 'artist_info' | 'visualizer' | 'minimal'`. -/
inductive DisplayMode where
  | album_art
  | lyrics
  | artist_info
  | visualizer
  | minimal
deriving DecidableEq, Repr

/-- The `TrackInfo` interface of `types.ts`.  JavaScript numbers carrying
millisecond counts are modelled as integers; optional fields as `Option`. -/
structure TrackInfo where
  id : String
  title : String
  artist : String
  album : String
  album_art_url : Option String
  album_art_colors : Option (List String)
  duration_ms : Int
  progress_ms : Int
  is_playing : Bool
  source : SourceType
  release_year : Option Int
  genre : Option (List String)
  lyrics : Option String
  artist_image_url : Option String
  artist_bio : Option String
deriving DecidableEq, Repr

/-- The `DisplayState` interface of `types.ts`. -/
structure DisplayState where
  mode : DisplayMode
  brightness : Int
  track : Option TrackInfo
deriving DecidableEq, Repr

/-- The four wire message types of `WSMessage` in `types.ts`. -/
inductive MsgType where
  | init
  | track_update
  | progress_update
  | mode_change
deriving DecidableEq, Repr

/-- The `WSMessage` interface of `types.ts`: a type tag plus optional
payload fields. -/
structure WSMessage where
  type : MsgType
  track : Option TrackInfo
  state : Option DisplayState
  progress_ms : Option Int
  is_playing : Option Bool
  mode : Option DisplayMode
deriving DecidableEq, Repr

/-- The client-side state kept by the `useWebSocket` hook: the current
track (possibly null) and the current display mode. -/
structure ClientState where
  track : Option TrackInfo
  mode : DisplayMode
deriving DecidableEq, Repr

/-- The initial client state of `useWebSocket`: `useState<TrackInfo|null>(null)`
and `useState<DisplayMode>('album_art')`. -/
def initialClientState : ClientState :=
  { track := none, mode := DisplayMode.album_art }

/-- The `onmessage` switch of `useWebSocket.ts` lines 44-65, as a state
transformer.  Truthiness guards `if (message.track)`, `if (message.state?.mode)`
and `if (message.mode)` become `Option` matches; the nullish coalescing
`message.progress_ms ?? prev.progress_ms` becomes `Option.getD`. -/
def applyMessage (s : ClientState) (m : WSMessage) : ClientState :=
  match m.type with
  | .init =>
      { track := match m.track with
          | some t => some t
          | none => s.track
        mode := match m.state with
          | some st => st.mode
          | none => s.mode }
  | .track_update =>
      { s with track := match m.track with
          | some t => some t
          | none => s.track }
  | .progress_update =>
      { s with track := match s.track with
          | some t => some { t with
              progress_ms := m.progress_ms.getD t.progress_ms
              is_playing := m.is_playing.getD t.is_playing }
          | none => none }
  | .mode_change =>
      { s with mode := match m.mode with
          | some md => md
          | none => s.mode }

/-- Folding a whole sequence of wire messages into the client state. -/
def applyMessages (s : ClientState) (ms : List WSMessage) : ClientState :=
  ms.foldl applyMessage s

/-- The mode list of `App.tsx` line 55:
`['album_art', 'lyrics', 'artist_info', 'visualizer', 'minimal']`. -/
def modesList : List DisplayMode :=
  [DisplayMode.album_art, DisplayMode.lyrics, DisplayMode.artist_info,
   DisplayMode.visualizer, DisplayMode.minimal]

/-- `modes.indexOf(currentMode)` of `App.tsx` line 56.  Every `DisplayMode`
value occurs in `modesList`, so the JavaScript `-1` case never arises. -/
def modeIndex : DisplayMode → Nat
  | .album_art => 0
  | .lyrics => 1
  | .artist_info => 2
  | .visualizer => 3
  | .minimal => 4

/-- `modes[(currentIndex + 1) % modes.length]` from the ArrowRight branch of
`handleKeyDown` (`App.tsx` lines 58-60). -/
def nextMode (m : DisplayMode) : DisplayMode :=
  modesList.getD ((modeIndex m + 1) % modesList.length) DisplayMode.album_art

/-- `modes[(currentIndex - 1 + modes.length) % modes.length]` from the
ArrowLeft branch of `handleKeyDown` (`App.tsx` lines 61-63). -/
def prevMode (m : DisplayMode) : DisplayMode :=
  modesList.getD ((modeIndex m + modesList.length - 1) % modesList.length)
    DisplayMode.album_art

/-- The component selected by `renderDisplay` in `App.tsx` lines 74-100. -/
inductive RenderedView where
  | idleScreen
  | albumArtDisplay
  | lyricsDisplay
  | artistInfoDisplay
  | visualizerDisplay
  | minimalDisplay
deriving DecidableEq, Repr

/-- `renderDisplay` of `App.tsx`: the `if (!track)` guard selects the idle
screen, then the switch on `currentMode` selects the display component. -/
def renderDisplay (track : Option TrackInfo) (currentMode : DisplayMode) :
    RenderedView :=
  match track with
  | none => .idleScreen
  | some _ =>
      match currentMode with
      | .album_art => .albumArtDisplay
      | .lyrics => .lyricsDisplay
      | .artist_info => .artistInfoDisplay
      | .visualizer => .visualizerDisplay
      | .minimal => .minimalDisplay

/-- `progressPercent` of `AlbumArtDisplay.tsx` lines 12-14:
`track.duration_ms > 0 ? (track.progress_ms / track.duration_ms) * 100 : 0`. -/
def albumArtProgressPercent (t : TrackInfo) : ℚ :=
  if t.duration_ms > 0 then (t.progress_ms : ℚ) / (t.duration_ms : ℚ) * 100
  else 0

/-- `progressPercent` of `MinimalDisplay` (same formula, lines 269-271 of the
components source): `duration_ms > 0 ? (progress_ms / duration_ms) * 100 : 0`. -/
def minimalProgressPercent (t : TrackInfo) : ℚ :=
  if t.duration_ms > 0 then (t.progress_ms : ℚ) / (t.duration_ms : ℚ) * 100
  else 0

/-- Modelled from the spec: a provider snapshot as seen by the Change
Detector (backend component, not present under `src/`).  Identity is the
signature derived from title, artist and album; the mutable presentation
fields are progress and playing state. -/
structure TrackSnapshot where
  title : String
  artist : String
  album : String
  progress_ms : Int
  is_playing : Bool
deriving DecidableEq, Repr

/-- Modelled from the spec: the stable signature derived from
(title, artist, album); two snapshots with the same signature are the same
track even if progress differs. -/
def signature (s : TrackSnapshot) : String × String × String :=
  (s.title, s.artist, s.album)

/-- The Change Detector's three-way classification of a new snapshot
against the previous canonical state. -/
inductive Classification where
  | NoOp
  | ProgressOnly
  | TrackChanged
deriving DecidableEq, Repr

/-- Modelled from the spec: the Change Detector's pure function
`classify(previous, next)` (backend component, not present under `src/`).
Absent previous (or "none") with a present next, an absent next with a
present previous, or differing signatures give `TrackChanged`; a
bit-for-bit identical snapshot gives `NoOp`; otherwise the difference is
progress/playing only and gives `ProgressOnly`. -/
def classify : Option TrackSnapshot → Option TrackSnapshot → Classification
  | none, none => .NoOp
  | none, some _ => .TrackChanged
  | some _, none => .TrackChanged
  | some p, some n =>
      if signature p ≠ signature n then .TrackChanged
      else if p = n then .NoOp
      else .ProgressOnly

/-- Modelled from the spec: the Arbiter's defensive clamp of progress into
`[0, duration]` on ingestion (backend component, not present under `src/`). -/
def clampProgress (duration progress : Int) : Int :=
  max 0 (min progress duration)

/-- Modelled from the spec: ingesting an accepted snapshot into the
canonical published TrackState clamps `progress_ms` on the way in; every
other field is published unchanged. -/
def ingest (t : TrackInfo) : TrackInfo :=
  { t with progress_ms := clampProgress t.duration_ms t.progress_ms }

/-- The published-state invariant of the spec:
`0 ≤ progress_ms ≤ duration_ms`. -/
def TrackInv (t : TrackInfo) : Prop :=
  0 ≤ t.progress_ms ∧ t.progress_ms ≤ t.duration_ms

instance (t : TrackInfo) : Decidable (TrackInv t) :=
  inferInstanceAs (Decidable (_ ∧ _))

/-- The invariant lifted to an optional track: a null track is vacuously
within bounds. -/
def OptTrackInv : Option TrackInfo → Prop
  | none => True
  | some t => TrackInv t

instance (o : Option TrackInfo) : Decidable (OptTrackInv o) := by
  cases o <;> simp only [OptTrackInv] <;> infer_instance

/-- The client-state invariant: whatever track the client holds is within
bounds. -/
def ClientInv (s : ClientState) : Prop :=
  OptTrackInv s.track

instance (s : ClientState) : Decidable (ClientInv s) :=
  inferInstanceAs (Decidable (OptTrackInv _))

/-- A carried progress value respects the duration of the client's current
track; vacuous when either is absent. -/
def ProgressFits : Option Int → Option TrackInfo → Prop
  | some p, some t => 0 ≤ p ∧ p ≤ t.duration_ms
  | some _, none => True
  | none, _ => True

instance (o : Option Int) (tr : Option TrackInfo) :
    Decidable (ProgressFits o tr) :=
  match o, tr with
  | some p, some t => inferInstanceAs (Decidable (0 ≤ p ∧ p ≤ t.duration_ms))
  | some _, none => inferInstanceAs (Decidable True)
  | none, none => inferInstanceAs (Decidable True)
  | none, some _ => inferInstanceAs (Decidable True)

/-- A wire message as produced by the broadcasting backend: only
`track_update` and `progress_update` are considered, a carried track is an
ingested (hence clamped) one, and a carried progress value respects the
duration of the track it is emitted for — the spec's invariant that a
ProgressTick is only ever emitted for the track last announced to that
subscriber. -/
def ValidMsg (s : ClientState) (m : WSMessage) : Prop :=
  (m.type = .track_update ∨ m.type = .progress_update) ∧
  OptTrackInv m.track ∧
  ProgressFits m.progress_ms s.track

instance (s : ClientState) (m : WSMessage) : Decidable (ValidMsg s m) :=
  inferInstanceAs (Decidable (_ ∧ _ ∧ _))

/-- A message sequence each of whose elements is valid in the client state
reached by applying the ones before it. -/
inductive ValidSeq : ClientState → List WSMessage → Prop where
  | nil (s : ClientState) : ValidSeq s []
  | cons {s : ClientState} {m : WSMessage} {ms : List WSMessage}
      (hm : ValidMsg s m) (hms : ValidSeq (applyMessage s m) ms) :
      ValidSeq s (m :: ms)

/-- A single RGBA sample from the canvas pixel buffer read by
`useColorExtraction` (`ctx.getImageData`, four bytes per pixel). -/
structure RGBA where
  r : Nat
  g : Nat
  b : Nat
  a : Nat
deriving DecidableEq, Repr

/-- `Math.round(pixels[i] / 32) * 32` of `useColorExtraction.ts` lines 51-53,
for a non-negative byte value: rounding half away from zero is
`(x + 16) / 32` in integer division. -/
def quantizeChannel (x : Nat) : Nat :=
  (x + 16) / 32 * 32

/-- The quantized color key `(r, g, b)` built from one pixel
(the source keys its Map by the string `r,g,b`, which carries the same
information as the triple). -/
def quantKey (p : RGBA) : Nat × Nat × Nat :=
  (quantizeChannel p.r, quantizeChannel p.g, quantizeChannel p.b)

/-- One step of `colorCounts.set(key, (colorCounts.get(key) || 0) + 1)`:
increment the count of an existing key, or append a first-occurrence entry,
preserving JavaScript Map insertion order. -/
def bumpCount : List ((Nat × Nat × Nat) × Nat) → (Nat × Nat × Nat) →
    List ((Nat × Nat × Nat) × Nat)
  | [], k => [(k, 1)]
  | (k0, c) :: rest, k =>
      if k0 = k then (k0, c + 1) :: rest else (k0, c) :: bumpCount rest k

/-- The color-count map built by the pixel loop of `useColorExtraction.ts`
lines 48-56, as an association list in insertion order. -/
def colorCounts (ps : List RGBA) : List ((Nat × Nat × Nat) × Nat) :=
  ps.foldl (fun m p => bumpCount m (quantKey p)) []

/-- Stable insertion of one entry into a list sorted by descending count:
an entry stays behind earlier entries with a count at least as large,
matching the stable `sort((a, b) => b[1] - a[1])` of the source. -/
def insertByCountDesc (x : (Nat × Nat × Nat) × Nat) :
    List ((Nat × Nat × Nat) × Nat) → List ((Nat × Nat × Nat) × Nat)
  | [] => [x]
  | y :: ys => if x.2 ≤ y.2 then y :: insertByCountDesc x ys else x :: y :: ys

/-- Stable sort of the count entries by descending count
(`useColorExtraction.ts` line 60). -/
def sortByCountDesc : List ((Nat × Nat × Nat) × Nat) →
    List ((Nat × Nat × Nat) × Nat)
  | [] => []
  | x :: xs => insertByCountDesc x (sortByCountDesc xs)

/-- Formatting of one quantized color as the CSS string
`rgb(r, g, b)` (`useColorExtraction.ts` line 64). -/
def rgbString (k : Nat × Nat × Nat) : String :=
  "rgb(" ++ toString k.1 ++ ", " ++ toString k.2.1 ++ ", " ++ toString k.2.2
    ++ ")"

/-- `sortedColors` of `useColorExtraction.ts` lines 59-65: sort by
frequency, keep at most six, render each as an `rgb(...)` string. -/
def sortedColors (ps : List RGBA) : List String :=
  ((sortByCountDesc (colorCounts ps)).take 6).map fun e => rgbString e.1

/-- The six-slot palette returned by `useColorExtraction`. -/
structure ColorPalette where
  dominant : String
  vibrant : String
  muted : String
  darkVibrant : String
  darkMuted : String
  lightVibrant : String
deriving DecidableEq, Repr

/-- The `defaultPalette` constant of `useColorExtraction.ts` lines 12-19. -/
def defaultPalette : ColorPalette :=
  { dominant := "#1a1a2e"
    vibrant := "#4a4a6a"
    muted := "#2a2a3e"
    darkVibrant := "#0a0a1e"
    darkMuted := "#1a1a2e"
    lightVibrant := "#6a6a8a" }

/-- The palette assembly of `useColorExtraction.ts` lines 67-74.  Every
`rgb(...)` string is nonempty, so the JavaScript falsy fallback
`sortedColors[i] || default` coincides with the out-of-bounds fallback. -/
def extractPalette (ps : List RGBA) : ColorPalette :=
  let cs := sortedColors ps
  { dominant := cs.getD 0 defaultPalette.dominant
    vibrant := cs.getD 1 defaultPalette.vibrant
    muted := cs.getD 2 defaultPalette.muted
    darkVibrant := cs.getD 3 defaultPalette.darkVibrant
    darkMuted := cs.getD 4 defaultPalette.darkMuted
    lightVibrant := cs.getD 5 defaultPalette.lightVibrant }

/-- The `useColorExtraction` hook as a function of its image URL argument
and of the pixel buffer the loaded image decodes to: an absent URL yields
the default palette (`if (!imageUrl)` branch, lines 25-28); otherwise the
palette is extracted from the pixels. -/
def useColorExtraction : Option String → List RGBA → ColorPalette
  | none, _ => defaultPalette
  | some _, ps => extractPalette ps

/-! Concrete example values used by counterexamples and witnesses. -/

/-- A concrete mid-playback track: 4 s into a 200 s song. -/
def exTrack : TrackInfo :=
  { id := "t1"
    title := "Song X"
    artist := "Artist Y"
    album := "Album Z"
    album_art_url := none
    album_art_colors := none
    duration_ms := 200000
    progress_ms := 4000
    is_playing := true
    source := SourceType.spotify
    release_year := none
    genre := none
    lyrics := none
    artist_image_url := none
    artist_bio := none }

/-- A raw provider snapshot whose progress overshoots its duration, as the
spec's defensive-clamping note anticipates. -/
def exOverTrack : TrackInfo :=
  { exTrack with progress_ms := 250000 }

/-- A client mid-playback, in album-art mode. -/
def exClientState : ClientState :=
  { track := some exTrack, mode := DisplayMode.album_art }

/-- An `init` message carrying a null track (no track playing) and a mode. -/
def exInitNullMsg : WSMessage :=
  { type := MsgType.init
    track := none
    state := some { mode := DisplayMode.minimal, brightness := 100, track := none }
    progress_ms := none
    is_playing := none
    mode := none }

/-- An `init` message carrying a full snapshot and a mode. -/
def exInitFullMsg : WSMessage :=
  { type := MsgType.init
    track := some exTrack
    state := some { mode := DisplayMode.lyrics, brightness := 80, track := none }
    progress_ms := none
    is_playing := none
    mode := none }

/-- A `track_update` message announcing `exTrack`. -/
def exTrackUpdateMsg : WSMessage :=
  { type := MsgType.track_update
    track := some exTrack
    state := none
    progress_ms := none
    is_playing := none
    mode := none }

/-- A `progress_update` message moving progress to 150 s, within the
200 s duration of the announced track. -/
def exProgressMsg : WSMessage :=
  { type := MsgType.progress_update
    track := none
    state := none
    progress_ms := some 150000
    is_playing := some true
    mode := none }

/-- A `progress_update` message that omits both optional fields. -/
def exEmptyProgressMsg : WSMessage :=
  { type := MsgType.progress_update
    track := none
    state := none
    progress_ms := none
    is_playing := none
    mode := none }

/-- A `mode_change` message selecting the visualizer. -/
def exModeMsg : WSMessage :=
  { type := MsgType.mode_change
    track := none
    state := none
    progress_ms := none
    is_playing := none
    mode := some DisplayMode.visualizer }

/-- A snapshot of Song X at progress 0, playing. -/
def exSnapStart : TrackSnapshot :=
  { title := "Song X", artist := "Artist Y", album := "Album Z"
    progress_ms := 0, is_playing := true }

/-- The same song after a large forward seek — far more than one poll
interval of elapsed time. -/
def exSnapSeek : TrackSnapshot :=
  { exSnapStart with progress_ms := 150000 }

/-- A single concrete pixel. -/
def exPixel : RGBA :=
  { r := 200, g := 16, b := 40, a := 255 }

/-! Helper lemmas. -/

/-- Ingestion clamps progress into `[0, duration]` whenever the duration is
non-negative, and touches no other field. -/
lemma trackInv_ingest (t : TrackInfo) (h : 0 ≤ t.duration_ms) :
    TrackInv (ingest t) := by
  simp only [TrackInv, ingest, clampProgress]
  exact ⟨le_max_left 0 _, max_le h (min_le_right _ _)⟩

/-- One valid message preserves the client-state invariant. -/
lemma clientInv_step {s : ClientState} {m : WSMessage}
    (hs : ClientInv s) (hm : ValidMsg s m) : ClientInv (applyMessage s m) := by
  obtain ⟨hty, htr, hp⟩ := hm
  rcases hty with h | h
  · simp only [ClientInv, applyMessage, h]
    cases htr2 : m.track with
    | none => exact hs
    | some t => rw [htr2] at htr; exact htr
  · simp only [ClientInv, applyMessage, h]
    cases hst : s.track with
    | none => trivial
    | some t =>
      have htInv : TrackInv t := by
        simp only [ClientInv, hst, OptTrackInv] at hs; exact hs
      cases hpm : m.progress_ms with
      | none =>
        simp only [OptTrackInv, TrackInv, Option.getD_none]
        exact htInv
      | some p =>
        rw [hpm, hst] at hp
        simp only [ProgressFits] at hp
        simp only [OptTrackInv, TrackInv, Option.getD_some]
        exact hp

/-- A valid message sequence preserves the client-state invariant. -/
lemma clientInv_applyMessages {s : ClientState} {ms : List WSMessage}
    (hs : ClientInv s) (hseq : ValidSeq s ms) :
    ClientInv (applyMessages s ms) := by
  induction hseq with
  | nil s0 => exact hs
  | cons hm hms ih => exact ih (clientInv_step hs hm)

/-- With equal signatures, two snapshots differ exactly when their progress
or playing flag differs. -/
lemma snapshot_ne_iff (p n : TrackSnapshot)
    (hsig : signature p = signature n) :
    p ≠ n ↔ (p.progress_ms ≠ n.progress_ms ∨ p.is_playing ≠ n.is_playing) := by
  cases p with
  | mk pt pa pal pp ppl =>
    cases n with
    | mk nt na nal np npl =>
      simp only [signature, Prod.mk.injEq] at hsig
      obtain ⟨h1, h2, h3⟩ := hsig
      subst h1; subst h2; subst h3
      simp [TrackSnapshot.mk.injEq]
      tauto

/-- Insertion into the descending-count order adds exactly one entry. -/
lemma length_insertByCountDesc (x : (Nat × Nat × Nat) × Nat)
    (l : List ((Nat × Nat × Nat) × Nat)) :
    (insertByCountDesc x l).length = l.length + 1 := by
  induction l with
  | nil => rfl
  | cons y ys ih =>
    simp only [insertByCountDesc]
    split <;> simp [ih]

/-- Sorting by descending count preserves the number of entries. -/
lemma length_sortByCountDesc (l : List ((Nat × Nat × Nat) × Nat)) :
    (sortByCountDesc l).length = l.length := by
  induction l with
  | nil => rfl
  | cons x xs ih => simp [sortByCountDesc, length_insertByCountDesc, ih]

/-- The extracted color list has one entry per distinct quantized color,
capped at six. -/
lemma length_sortedColors (ps : List RGBA) :
    (sortedColors ps).length = min 6 (colorCounts ps).length := by
  simp [sortedColors, length_sortByCountDesc]

/-- Reading past the end of a list yields the supplied default. -/
lemma getD_of_le {α : Type} (l : List α) (i : Nat) (d : α)
    (h : l.length ≤ i) : l.getD i d = d := by
  induction l generalizing i with
  | nil => simp [List.getD]
  | cons x xs ih =>
    cases i with
    | zero => simp at h
    | succ j =>
      simp only [List.getD_cons_succ]
      exact ih j (by simpa using h)

/-- A slot index at or past the number of distinct quantized colors falls
back to its default. -/
lemma sortedColors_getD_default (ps : List RGBA) (i : Nat) (d : String)
    (h : (colorCounts ps).length ≤ i) : (sortedColors ps).getD i d = d :=
  getD_of_le _ _ _ (by rw [length_sortedColors]; omega)

/-- A formatted `rgb(...)` string is never empty. -/
lemma rgbString_ne_empty (k : Nat × Nat × Nat) : rgbString k ≠ "" := by
  intro h
  have hlen := congrArg String.length h
  simp [rgbString, String.length_append] at hlen
  exact absurd hlen.1.1.1.1.1.1 (by decide)

/-- Every entry of the extracted color list is a nonempty string. -/
lemma sortedColors_ne_empty (ps : List RGBA) :
    ∀ s ∈ sortedColors ps, s ≠ "" := by
  intro s hs
  simp only [sortedColors, List.mem_map] at hs
  obtain ⟨e, _, rfl⟩ := hs
  exact rgbString_ne_empty _

/-- Reading any slot of a list of nonempty strings with a nonempty default
yields a nonempty string. -/
lemma getD_ne_empty (l : List String) (i : Nat) (d : String)
    (hd : d ≠ "") (hl : ∀ s ∈ l, s ≠ "") : l.getD i d ≠ "" := by
  induction l generalizing i with
  | nil => simpa [List.getD] using hd
  | cons x xs ih =>
    cases i with
    | zero => simpa using hl x (by simp)
    | succ j =>
      simp only [List.getD_cons_succ]
      exact ih j fun s hs => hl s (by simp [hs])

/-! Claim theorems. -/

/-- C3: applying a `progress_update` message to a client state holding a
track changes only the `progress_ms` and `is_playing` fields of the track
(each taken from the message when present) and leaves every other field and
the display mode unchanged; applying a `mode_change` message leaves the
track unchanged and changes only the mode (taken from the message when
present). -/
theorem progress_update_frame :
    (∀ (s : ClientState) (t : TrackInfo) (m : WSMessage),
      s.track = some t → m.type = MsgType.progress_update →
      (applyMessage s m).mode = s.mode ∧
      (applyMessage s m).track = some { t with
        progress_ms := m.progress_ms.getD t.progress_ms
        is_playing := m.is_playing.getD t.is_playing }) ∧
    (∀ (s : ClientState) (m : WSMessage), m.type = MsgType.mode_change →
      (applyMessage s m).track = s.track ∧
      (applyMessage s m).mode = (m.mode.getD s.mode)) := by
  constructor
  · intro s t m hs hm
    simp [applyMessage, hm, hs]
  · intro s m hm
    refine ⟨by simp [applyMessage, hm], ?_⟩
    cases hmd : m.mode with
    | none => simp [applyMessage, hm, hmd]
    | some md => simp [applyMessage, hm, hmd]

/-- Witness for C3 at concrete inputs: a progress tick to 150 s keeps every
identity field of the current track and the mode, and a mode change keeps
the track. -/
theorem progress_update_frame_witness :
    ((applyMessage exClientState exProgressMsg).mode = exClientState.mode ∧
      (applyMessage exClientState exProgressMsg).track = some { exTrack with
        progress_ms := exProgressMsg.progress_ms.getD exTrack.progress_ms
        is_playing := exProgressMsg.is_playing.getD exTrack.is_playing }) ∧
    ((applyMessage exClientState exModeMsg).track = exClientState.track ∧
      (applyMessage exClientState exModeMsg).mode =
        (exModeMsg.mode.getD exClientState.mode)) :=
  ⟨progress_update_frame.1 exClientState exTrack exProgressMsg rfl rfl,
   progress_update_frame.2 exClientState exModeMsg rfl⟩

/-- C4 counterexample: an `init` message carrying a null track does not
replace the client's view — the previous non-null track is retained, so the
client's track state does not become the event's (null) track. -/
theorem init_null_track_counterexample :
    exInitNullMsg.type = MsgType.init ∧ exInitNullMsg.track = none ∧
    (applyMessage exClientState exInitNullMsg).track = some exTrack ∧
    ((applyMessage exClientState exInitNullMsg).track == none) = false := by
  exact ⟨rfl, rfl, rfl, by decide⟩

/-- C4 amended: processing an `init` event sets the client's track to the
carried snapshot when it is non-null and retains the prior track when the
carried track is null; the mode becomes the event's `state.mode` when the
state object is present and is retained otherwise. -/
theorem init_replaces_view_amended :
    ∀ (s : ClientState) (m : WSMessage), m.type = MsgType.init →
      (∀ t, m.track = some t → (applyMessage s m).track = some t) ∧
      (m.track = none → (applyMessage s m).track = s.track) ∧
      (∀ st, m.state = some st → (applyMessage s m).mode = st.mode) ∧
      (m.state = none → (applyMessage s m).mode = s.mode) := by
  intro s m hm
  refine ⟨?_, ?_, ?_, ?_⟩
  · intro t ht; simp [applyMessage, hm, ht]
  · intro ht; simp [applyMessage, hm, ht]
  · intro st hst; simp [applyMessage, hm, hst]
  · intro hst; simp [applyMessage, hm, hst]

/-- Witness for the amended C4 at concrete inputs: a full `init` replaces
both track and mode; a null-track `init` retains the prior track. -/
theorem init_replaces_view_amended_witness :
    (applyMessage exClientState exInitFullMsg).track = some exTrack ∧
    (applyMessage exClientState exInitFullMsg).mode = DisplayMode.lyrics ∧
    (applyMessage exClientState exInitNullMsg).track = exClientState.track :=
  ⟨(init_replaces_view_amended exClientState exInitFullMsg rfl).1 exTrack rfl,
   (init_replaces_view_amended exClientState exInitFullMsg rfl).2.2.1
     { mode := DisplayMode.lyrics, brightness := 80, track := none } rfl,
   (init_replaces_view_amended exClientState exInitNullMsg rfl).2.1 rfl⟩

/-- C5 counterexample: the source type of the code has the value `analog`,
which is not one of the five values the claim lists — and the claimed
values `lastfm`, `audio`, `demo`, `none` are not values of the type. -/
theorem source_enum_counterexample :
    (["spotify", "lastfm", "audio", "demo", "none"] : List String).contains
      (sourceTypeStr SourceType.analog) = false ∧
    ((["spotify", "analog", "unknown"] : List String).contains
      "lastfm") = false := by
  exact ⟨by decide, by decide⟩

/-- C5 amended: the `source` field of a track takes exactly one of the
three enum values `spotify`, `analog`, `unknown` of `types.ts`; all three
are realized. -/
theorem source_enum_amended :
    (∀ t : TrackInfo, sourceTypeStr t.source ∈
      (["spotify", "analog", "unknown"] : List String)) ∧
    (∃ a b c : SourceType, sourceTypeStr a = "spotify" ∧
      sourceTypeStr b = "analog" ∧ sourceTypeStr c = "unknown") := by
  constructor
  · intro t; cases t.source <;> decide
  · exact ⟨SourceType.spotify, SourceType.analog, SourceType.unknown,
      rfl, rfl, rfl⟩

/-- C6: in both `AlbumArtDisplay` and `MinimalDisplay` the rendered
progress fraction is `(progress_ms / duration_ms) * 100` when the duration
is positive — and the divisor is nonzero there — and exactly `0` when the
duration is zero, so the division is never evaluated with a zero divisor. -/
theorem progress_percent_guarded :
    ∀ t : TrackInfo,
      (0 < t.duration_ms →
        ((t.duration_ms : ℚ) ≠ 0 ∧
          albumArtProgressPercent t =
            (t.progress_ms : ℚ) / (t.duration_ms : ℚ) * 100 ∧
          minimalProgressPercent t =
            (t.progress_ms : ℚ) / (t.duration_ms : ℚ) * 100)) ∧
      (t.duration_ms = 0 →
        (albumArtProgressPercent t = 0 ∧ minimalProgressPercent t = 0)) := by
  intro t
  constructor
  · intro h
    refine ⟨?_, ?_, ?_⟩
    · exact_mod_cast h.ne'
    · simp [albumArtProgressPercent, h]
    · simp [minimalProgressPercent, h]
  · intro h
    constructor
    · simp [albumArtProgressPercent, h]
    · simp [minimalProgressPercent, h]

/-- Witness for C6 at concrete inputs: 4 s into a 200 s track renders as
2 percent in both components, and a zero-duration track renders as 0. -/
theorem progress_percent_guarded_witness :
    albumArtProgressPercent exTrack = (4000 : ℚ) / 200000 * 100 ∧
    minimalProgressPercent exTrack = (4000 : ℚ) / 200000 * 100 ∧
    albumArtProgressPercent { exTrack with duration_ms := 0 } = 0 ∧
    minimalProgressPercent { exTrack with duration_ms := 0 } = 0 :=
  ⟨((progress_percent_guarded exTrack).1 (by decide)).2.1,
   ((progress_percent_guarded exTrack).1 (by decide)).2.2,
   ((progress_percent_guarded { exTrack with duration_ms := 0 }).2 rfl).1,
   ((progress_percent_guarded { exTrack with duration_ms := 0 }).2 rfl).2⟩

/-- C7: the display mode has exactly the five values of the modes list, and
for a non-null track `renderDisplay` selects exactly the display component
matching each mode. -/
theorem render_display_mode_correct :
    (∀ m : DisplayMode, m ∈ modesList) ∧
    (modesList.length = 5) ∧
    (∀ t : TrackInfo,
      renderDisplay (some t) DisplayMode.album_art =
        RenderedView.albumArtDisplay ∧
      renderDisplay (some t) DisplayMode.lyrics =
        RenderedView.lyricsDisplay ∧
      renderDisplay (some t) DisplayMode.artist_info =
        RenderedView.artistInfoDisplay ∧
      renderDisplay (some t) DisplayMode.visualizer =
        RenderedView.visualizerDisplay ∧
      renderDisplay (some t) DisplayMode.minimal =
        RenderedView.minimalDisplay) := by
  refine ⟨?_, rfl, ?_⟩
  · intro m; cases m <;> simp [modesList]
  · intro t; exact ⟨rfl, rfl, rfl, rfl, rfl⟩

/-- C8: a `progress_update` arriving while the client's track is null
leaves it null, and a `progress_update` omitting `progress_ms` or
`is_playing` leaves the corresponding field of the current track at its
previous value. -/
theorem progress_update_null_and_omitted :
    ∀ (s : ClientState) (m : WSMessage), m.type = MsgType.progress_update →
      (s.track = none → (applyMessage s m).track = none) ∧
      (∀ t, s.track = some t → m.progress_ms = none →
        ∃ u, (applyMessage s m).track = some u ∧
          u.progress_ms = t.progress_ms) ∧
      (∀ t, s.track = some t → m.is_playing = none →
        ∃ u, (applyMessage s m).track = some u ∧
          u.is_playing = t.is_playing) := by
  intro s m hm
  refine ⟨?_, ?_, ?_⟩
  · intro hs; simp [applyMessage, hm, hs]
  · intro t hs hp
    exact ⟨{ t with
               progress_ms := m.progress_ms.getD t.progress_ms
               is_playing := m.is_playing.getD t.is_playing },
      by simp [applyMessage, hm, hs], by simp [hp]⟩
  · intro t hs hp
    exact ⟨{ t with
               progress_ms := m.progress_ms.getD t.progress_ms
               is_playing := m.is_playing.getD t.is_playing },
      by simp [applyMessage, hm, hs], by simp [hp]⟩

/-- Witness for C8 at concrete inputs: a tick on a null track stays null,
and a tick with both fields omitted leaves the current track's progress and
playing flag unchanged. -/
theorem progress_update_null_and_omitted_witness :
    (applyMessage initialClientState exProgressMsg).track = none ∧
    (applyMessage exClientState exEmptyProgressMsg).track.map
      TrackInfo.progress_ms = some exTrack.progress_ms ∧
    (applyMessage exClientState exEmptyProgressMsg).track.map
      TrackInfo.is_playing = some exTrack.is_playing := by
  refine ⟨(progress_update_null_and_omitted initialClientState exProgressMsg
      rfl).1 rfl, ?_, ?_⟩
  · obtain ⟨u, hu, hp⟩ := (progress_update_null_and_omitted exClientState
      exEmptyProgressMsg rfl).2.1 exTrack rfl rfl
    simp [hu, hp]
  · obtain ⟨u, hu, hp⟩ := (progress_update_null_and_omitted exClientState
      exEmptyProgressMsg rfl).2.2 exTrack rfl rfl
    simp [hu, hp]

/-- C9: for every display mode, the ArrowRight successor followed by the
ArrowLeft predecessor returns the original mode, and conversely — the two
keyboard mode-cycling operations are mutually inverse. -/
theorem mode_cycle_inverse :
    ∀ m : DisplayMode, prevMode (nextMode m) = m ∧ nextMode (prevMode m) = m := by
  intro m
  cases m <;> exact ⟨rfl, rfl⟩

/-- C2: the Change Detector's `classify(previous, next)` returns
`TrackChanged` iff the signatures differ or previous is absent and next
present or next is absent and previous present; `ProgressOnly` iff the
signatures match and only `progress_ms`/`is_playing` differ — including a
seek of arbitrary magnitude; and `NoOp` iff the snapshot is bit-for-bit
unchanged from the previous one. -/
theorem classify_spec :
    ∀ prev next : Option TrackSnapshot,
      (classify prev next = Classification.TrackChanged ↔
        ((∃ p n, prev = some p ∧ next = some n ∧
            signature p ≠ signature n) ∨
         (prev = none ∧ next ≠ none) ∨
         (next = none ∧ prev ≠ none))) ∧
      (classify prev next = Classification.ProgressOnly ↔
        (∃ p n, prev = some p ∧ next = some n ∧
          signature p = signature n ∧
          (p.progress_ms ≠ n.progress_ms ∨ p.is_playing ≠ n.is_playing))) ∧
      (classify prev next = Classification.NoOp ↔ next = prev) ∧
      (∀ p n, prev = some p → next = some n → signature p = signature n →
        p.progress_ms ≠ n.progress_ms →
        classify prev next = Classification.ProgressOnly) := by
  intro prev next
  cases prev with
  | none =>
    cases next with
    | none => refine ⟨?_, ?_, ?_, ?_⟩ <;> simp [classify]
    | some n => refine ⟨?_, ?_, ?_, ?_⟩ <;> simp [classify]
  | some p =>
    cases next with
    | none => refine ⟨?_, ?_, ?_, ?_⟩ <;> simp [classify]
    | some n =>
      by_cases hsig : signature p = signature n
      · by_cases heq : p = n
        · subst heq
          refine ⟨?_, ?_, ?_, ?_⟩
          · simp [classify]
          · simp [classify]
          · simp [classify]
          · intro p2 n2 hp2 hn2 _ hne
            rw [Option.some.injEq] at hp2 hn2
            subst hp2; subst hn2
            exact absurd rfl hne
        · have hdiff := (snapshot_ne_iff p n hsig).mp heq
          have hcl : classify (some p) (some n) =
              Classification.ProgressOnly := by
            simp [classify, hsig, heq]
          refine ⟨?_, ?_, ?_, ?_⟩
          · rw [hcl]; simp [hsig]
          · rw [hcl]; simp; exact ⟨hsig, hdiff⟩
          · rw [hcl]; simp [Option.some.injEq]
            exact fun h => heq h.symm
          · intro _ _ _ _ _ _; exact hcl
      · have hcl : classify (some p) (some n) =
            Classification.TrackChanged := by
          simp [classify, hsig]
        refine ⟨?_, ?_, ?_, ?_⟩
        · rw [hcl]; simp; exact hsig
        · rw [hcl]; simp [hsig]
        · rw [hcl]; simp [Option.some.injEq]
          intro h; subst h; exact hsig rfl
        · intro p2 n2 hp2 hn2 hsig2 _
          rw [Option.some.injEq] at hp2 hn2
          subst hp2; subst hn2
          exact absurd hsig2 hsig

/-- Witness for C2 at concrete inputs: a forward seek of 150 s within the
same song is classified `ProgressOnly`, an unchanged snapshot is `NoOp`,
and a first snapshot after none is `TrackChanged`. -/
theorem classify_spec_witness :
    classify (some exSnapStart) (some exSnapSeek) =
      Classification.ProgressOnly ∧
    classify (some exSnapStart) (some exSnapStart) = Classification.NoOp ∧
    classify none (some exSnapStart) = Classification.TrackChanged :=
  ⟨(classify_spec (some exSnapStart) (some exSnapSeek)).2.2.2
      exSnapStart exSnapSeek rfl rfl (by decide) (by decide),
   ((classify_spec (some exSnapStart) (some exSnapStart)).2.2.1).mpr rfl,
   ((classify_spec none (some exSnapStart)).1).mpr
      (Or.inr (Or.inl ⟨rfl, by decide⟩))⟩

/-- C1: every published TrackState satisfies
`0 ≤ progress_ms ≤ duration_ms` — progress is clamped on ingestion — and
the client-side track state after applying any valid sequence of
`track_update`/`progress_update` messages keeps satisfying this bound. -/
theorem published_and_client_progress_bounded :
    (∀ t : TrackInfo, 0 ≤ t.duration_ms → TrackInv (ingest t)) ∧
    (∀ (s : ClientState) (ms : List WSMessage), ClientInv s →
      ValidSeq s ms → ClientInv (applyMessages s ms)) :=
  ⟨trackInv_ingest,
   fun _ _ hs hseq => clientInv_applyMessages hs hseq⟩

/-- Witness for C1 at concrete inputs: a snapshot overshooting its duration
is clamped back into bounds, and the client state after a concrete
track-update followed by a progress tick is within bounds. -/
theorem published_and_client_progress_bounded_witness :
    (0 ≤ exOverTrack.duration_ms ∧ TrackInv (ingest exOverTrack)) ∧
    ClientInv (applyMessages initialClientState
      [exTrackUpdateMsg, exProgressMsg]) :=
  ⟨⟨by decide,
    published_and_client_progress_bounded.1 exOverTrack (by decide)⟩,
   published_and_client_progress_bounded.2 initialClientState
     [exTrackUpdateMsg, exProgressMsg] (by decide)
     (ValidSeq.cons (by decide)
       (ValidSeq.cons (by decide) (ValidSeq.nil _)))⟩

/-- C10: `useColorExtraction` with an undefined image URL yields exactly
the default palette; when the pixels contain fewer than six distinct
quantized colors, every palette slot at or past that count falls back to
its default value; and all six palette fields are always nonempty color
strings. -/
theorem color_extraction_defaults :
    (∀ ps : List RGBA, useColorExtraction none ps = defaultPalette) ∧
    (∀ (url : String) (ps : List RGBA),
      ((colorCounts ps).length ≤ 0 →
        (useColorExtraction (some url) ps).dominant =
          defaultPalette.dominant) ∧
      ((colorCounts ps).length ≤ 1 →
        (useColorExtraction (some url) ps).vibrant =
          defaultPalette.vibrant) ∧
      ((colorCounts ps).length ≤ 2 →
        (useColorExtraction (some url) ps).muted = defaultPalette.muted) ∧
      ((colorCounts ps).length ≤ 3 →
        (useColorExtraction (some url) ps).darkVibrant =
          defaultPalette.darkVibrant) ∧
      ((colorCounts ps).length ≤ 4 →
        (useColorExtraction (some url) ps).darkMuted =
          defaultPalette.darkMuted) ∧
      ((colorCounts ps).length ≤ 5 →
        (useColorExtraction (some url) ps).lightVibrant =
          defaultPalette.lightVibrant)) ∧
    (∀ (url : String) (ps : List RGBA),
      (useColorExtraction (some url) ps).dominant ≠ "" ∧
      (useColorExtraction (some url) ps).vibrant ≠ "" ∧
      (useColorExtraction (some url) ps).muted ≠ "" ∧
      (useColorExtraction (some url) ps).darkVibrant ≠ "" ∧
      (useColorExtraction (some url) ps).darkMuted ≠ "" ∧
      (useColorExtraction (some url) ps).lightVibrant ≠ "") := by
  refine ⟨fun ps => rfl, ?_, ?_⟩
  · intro url ps
    refine ⟨?_, ?_, ?_, ?_, ?_, ?_⟩ <;>
      (intro h;
       simp only [useColorExtraction, extractPalette];
       exact sortedColors_getD_default ps _ _ h)
  · intro url ps
    refine ⟨?_, ?_, ?_, ?_, ?_, ?_⟩ <;>
      (simp only [useColorExtraction, extractPalette];
       exact getD_ne_empty _ _ _ (by decide) (sortedColors_ne_empty ps))

/-- Witness for C10 at concrete inputs: an empty pixel buffer has zero
distinct colors, so every slot is its default; a one-pixel buffer still
yields nonempty fields; an absent URL yields the default palette. -/
theorem color_extraction_defaults_witness :
    useColorExtraction none [exPixel] = defaultPalette ∧
    (useColorExtraction (some "art") []).dominant = defaultPalette.dominant ∧
    (useColorExtraction (some "art") []).lightVibrant =
      defaultPalette.lightVibrant ∧
    ((useColorExtraction (some "art") [exPixel]).dominant == "") = false := by
  refine ⟨color_extraction_defaults.1 [exPixel],
    (color_extraction_defaults.2.1 "art" []).1 (by decide),
    (color_extraction_defaults.2.1 "art" []).2.2.2.2.2 (by decide), ?_⟩
  have h := (color_extraction_defaults.2.2 "art" [exPixel]).1
  simpa using h

end MusicDisplay
